import Mathlib

/-!
Shallow embedding of the HTTP gateway in src/server.js: the JSON value model,
the request validation of the POST /api/chat/completions handler, the upstream
request construction, the catch-block error classification, the health
endpoint, and the fixed-window rate limiter in front of the handler.
-/

namespace Server

/-- JavaScript values as they appear in a parsed JSON request body, together
with the undefined value produced by a missing property. Numbers are modelled
as integers; the handler only checks truthiness on them. -/
inductive JVal where
  | undefined : JVal
  | null : JVal
  | bool : Bool → JVal
  | num : Int → JVal
  | str : String → JVal
  | arr : List JVal → JVal
  | obj : List (String × JVal) → JVal

/-- A JavaScript object: an association list of distinct keys, as JSON.parse
produces for the request body. -/
abbrev JObj := List (String × JVal)

/-- JavaScript truthiness: undefined, null, false, 0 and the empty string are
falsy; arrays and objects are always truthy. -/
def truthy : JVal → Bool
  | .undefined => false
  | .null => false
  | .bool b => b
  | .num n => n != 0
  | .str s => s != ""
  | .arr _ => true
  | .obj _ => true

/-- Property lookup on an object, yielding undefined for an absent key
(the result of destructuring or of a dot access on an object). -/
def jget (o : JObj) (k : String) : JVal := (o.lookup k).getD .undefined

/-- Total property access: on an object it is key lookup, on any other value
it yields undefined. Used to state properties; the handler itself goes
through getProp, which can throw. -/
def propOf (m : JVal) (k : String) : JVal :=
  match m with
  | .obj fs => jget fs k
  | _ => .undefined

/-- Property access as JavaScript evaluates message.role: reading a property
of null or undefined throws a TypeError; on a primitive it yields undefined. -/
def getProp : JVal → String → Except String JVal
  | .undefined, _ => .error "TypeError"
  | .null, _ => .error "TypeError"
  | .obj fs, k => .ok (jget fs k)
  | _, _ => .ok .undefined

/-- The JavaScript a || b on values: a when truthy, b otherwise. -/
def jor (a b : JVal) : JVal := if truthy a then a else b

/-- The keys destructured out of the request body before the rest spread. -/
def reservedKeys : List String := ["model", "messages", "max_completion_tokens"]

/-- The rest parameters of the destructuring
const \x7b model, messages, max_completion_tokens, ...otherParams \x7d = req.body. -/
def otherParams (body : JObj) : JObj :=
  body.filter (fun p => !(reservedKeys.contains p.1))

/-- The upstream request object the handler builds:
\x7b model: model || gpt-4o-mini, messages, max_completion_tokens: mct || 40,
...otherParams \x7d. Since otherParams contains none of the three leading keys,
the object spread coincides with list concatenation under key lookup. -/
def openaiRequest (body : JObj) : JObj :=
  ("model", jor (jget body "model") (.str "gpt-4o-mini")) ::
  ("messages", jget body "messages") ::
  ("max_completion_tokens", jor (jget body "max_completion_tokens") (.num 40)) ::
  otherParams body

/-- The error envelope \x7berror: \x7bmessage, type, code?\x7d\x7d returned on every
failure path. -/
structure ErrorBody where
  message : String
  type : String
  code : Option String

/-- A response body: a JSON payload, an error envelope, or the plain message
string the rate limiter sends. -/
inductive RespBody where
  | payload : JVal → RespBody
  | errorEnv : ErrorBody → RespBody
  | text : String → RespBody

/-- An HTTP response: status code and body. -/
structure Response where
  status : Nat
  body : RespBody

/-- The 400 response for a missing or non-array messages field. -/
def missingMessagesResponse : Response :=
  ⟨400, .errorEnv ⟨"Messages array is required", "invalid_request_error", none⟩⟩

/-- The 400 response for a message failing the role and content check. -/
def badMessageResponse : Response :=
  ⟨400, .errorEnv ⟨"Each message must have role and content", "invalid_request_error", none⟩⟩

/-- The generic 500 response of the final catch branch. -/
def serverErrorResponse : Response :=
  ⟨500, .errorEnv ⟨"Internal server error", "server_error", none⟩⟩

/-- The loosely typed error object inspected by the catch block: its code,
status, message and type fields, each possibly undefined. -/
structure JsError where
  code : Option String
  status : Option Nat
  message : Option String
  type : Option String

/-- The JavaScript fallback x || d on an optional string field: the field
when present and non-empty, the default otherwise. -/
def strOr (o : Option String) (d : String) : String :=
  match o with
  | some s => if s = "" then d else s
  | none => d

/-- The catch block of the handler: quota and rate-limit codes first, then a
carried status code with fallbacks, then the generic 500. -/
def mapError (e : JsError) : Response :=
  if e.code = some "insufficient_quota" then
    ⟨429, .errorEnv ⟨"API quota exceeded", "insufficient_quota", some "insufficient_quota"⟩⟩
  else if e.code = some "rate_limit_exceeded" then
    ⟨429, .errorEnv ⟨"Rate limit exceeded, please try again later",
      "rate_limit_exceeded", some "rate_limit_exceeded"⟩⟩
  else
    match e.status with
    | some s =>
      if s = 0 then serverErrorResponse
      else
        ⟨s, .errorEnv ⟨strOr e.message "OpenAI API error", strOr e.type "api_error",
          some (strOr e.code "api_error")⟩⟩
    | none => serverErrorResponse

/-- The outcome of the awaited upstream call: the completion object, or a
thrown error object. -/
inductive UpResult where
  | ok : JVal → UpResult
  | err : JsError → UpResult

/-- The error object of the TypeError thrown when the validation loop reads a
property of a null message; it carries neither code nor status. -/
def typeErrorObj : JsError := ⟨none, none, some "Cannot read properties of null", none⟩

/-- The validation loop: for each message, read role and check truthiness,
then content; reading a property of null throws, short-circuiting like the
JavaScript condition message.role falsy or message.content falsy. -/
def validateMessages : List JVal → Except String Bool
  | [] => .ok true
  | m :: rest =>
    match getProp m "role" with
    | .error e => .error e
    | .ok r =>
      if truthy r then
        match getProp m "content" with
        | .error e => .error e
        | .ok c => if truthy c then validateMessages rest else .ok false
      else .ok false

/-- The POST /api/chat/completions handler, parametrised by the upstream
call. Returns the response together with the number of upstream calls made.
A thrown TypeError from the validation loop reaches the same catch block as
an upstream error. -/
def handleChat (upstream : JObj → UpResult) (body : JObj) : Response × Nat :=
  match jget body "messages" with
  | .arr ms =>
    match validateMessages ms with
    | .error _ => (mapError typeErrorObj, 0)
    | .ok false => (badMessageResponse, 0)
    | .ok true =>
      match upstream (openaiRequest body) with
      | .ok v => (⟨200, .payload v⟩, 1)
      | .err e => (mapError e, 1)
  | _ => (missingMessagesResponse, 0)

/-- The GET /health handler: a static liveness payload. It consults nothing
but the clock, in particular not the upstream client. -/
def healthHandler (timestamp : String) : Response :=
  ⟨200, .payload (.obj
    [("status", .str "OK"), ("timestamp", .str timestamp),
     ("service", .str "Crystal Companions Backend")])⟩

/-- The rejection the rate limiter sends once the cap is exceeded. -/
def rateLimitedResponse : Response :=
  ⟨429, .text "Too many requests from this IP, please try again later."⟩

/-- Modelled from the spec: the fixed-window rate limiter of the
express-rate-limit middleware (library code, not under src/), configured in
src/server.js with a 15 minute window and a per-client cap. Within one
window, a request first increments the client counter; beyond the cap it is
rejected with the configured message before the handler runs. Returns the
response, the new counter, and the number of upstream calls. -/
def gatewayStep (cap prior : Nat) (upstream : JObj → UpResult) (body : JObj) :
    Response × Nat × Nat :=
  let c := prior + 1
  if cap < c then (rateLimitedResponse, c, 0)
  else
    let r := handleChat upstream body
    (r.1, c, r.2)

/-- A non-empty string value, the shape the spec data model prescribes for
role and content. -/
def isNonEmptyStr : JVal → Bool
  | .str s => s != ""
  | _ => false

/-- A message element carrying non-empty string role and content fields, the
shape the spec data model prescribes. -/
def validMsgStr (m : JVal) : Bool :=
  match m with
  | .obj fs => isNonEmptyStr (jget fs "role") && isNonEmptyStr (jget fs "content")
  | _ => false

/-- The truthiness check the validation loop applies to one message. -/
def msgOk (m : JVal) : Bool :=
  truthy (propOf m "role") && truthy (propOf m "content")

/-- The message field of an error-envelope response, when there is one. -/
def envMessage (r : Response) : Option String :=
  match r.body with
  | .errorEnv env => some env.message
  | _ => none

/-- Field access into a JSON payload response body. -/
def bodyField (r : Response) (k : String) : JVal :=
  match r.body with
  | .payload v => propOf v k
  | _ => .undefined

/-- Spec wording, first branch of the failure precedence: the error indicates
quota exhaustion. -/
def quotaExhausted (e : JsError) : Bool := e.code == some "insufficient_quota"

/-- Spec wording, second branch of the failure precedence: the error
indicates rate-limit exceedance. -/
def rateLimitHit (e : JsError) : Bool := e.code == some "rate_limit_exceeded"

/-- Spec wording, third branch: the upstream-provided message, type and code,
with generic fallbacks when absent. -/
def passthroughEnv (e : JsError) : ErrorBody :=
  ⟨strOr e.message "OpenAI API error", strOr e.type "api_error",
    some (strOr e.code "api_error")⟩

/-- Spec wording, last branch: the generic server failure. -/
def genericFailure : Response :=
  ⟨500, .errorEnv ⟨"Internal server error", "server_error", none⟩⟩

/-- The failure classification in the precedence order the claim states:
quota exhaustion, then rate-limit exceedance, then a carried status code
with passthrough and fallbacks, then the generic 500. This definition
follows the spec text; the theorem for C5 compares it with mapError, the
embedding of the catch block. -/
def classifyPerSpec (e : JsError) : Response :=
  if quotaExhausted e then
    ⟨429, .errorEnv ⟨"API quota exceeded", "insufficient_quota", some "insufficient_quota"⟩⟩
  else if rateLimitHit e then
    ⟨429, .errorEnv ⟨"Rate limit exceeded, please try again later",
      "rate_limit_exceeded", some "rate_limit_exceeded"⟩⟩
  else
    match e.status with
    | some s => if 0 < s then ⟨s, .errorEnv (passthroughEnv e)⟩ else genericFailure
    | none => genericFailure

/-! Helper lemmas about the embedding. -/

theorem getProp_ok {m : JVal} (h1 : m ≠ JVal.null) (h2 : m ≠ JVal.undefined) (k : String) :
    getProp m k = .ok (propOf m k) := by
  cases m <;> simp_all [getProp, propOf]

theorem validateMessages_all (ms : List JVal)
    (h : ∀ m ∈ ms, m ≠ JVal.null ∧ m ≠ JVal.undefined) :
    validateMessages ms = .ok (ms.all msgOk) := by
  induction ms with
  | nil => rfl
  | cons m rest ih =>
    obtain ⟨h1, h2⟩ := h m (List.mem_cons_self m rest)
    have hrest : ∀ x ∈ rest, x ≠ JVal.null ∧ x ≠ JVal.undefined :=
      fun x hx => h x (List.mem_cons_of_mem m hx)
    by_cases hr : truthy (propOf m "role") <;> by_cases hc : truthy (propOf m "content") <;>
      simp [validateMessages, getProp_ok h1 h2, msgOk, hr, hc, ih hrest]

theorem isNonEmptyStr_truthy {v : JVal} (h : isNonEmptyStr v = true) : truthy v = true := by
  cases v <;> simp_all [isNonEmptyStr, truthy]

theorem validMsgStr_shape {m : JVal} (h : validMsgStr m = true) :
    m ≠ JVal.null ∧ m ≠ JVal.undefined ∧ msgOk m = true := by
  cases m
  case obj fs =>
    simp only [validMsgStr, Bool.and_eq_true] at h
    refine ⟨by simp, by simp, ?_⟩
    simp [msgOk, propOf, isNonEmptyStr_truthy h.1, isNonEmptyStr_truthy h.2]
  all_goals simp [validMsgStr] at h

theorem lookup_cons_ne (k a : String) (v : JVal) (o : JObj) (h : k ≠ a) :
    List.lookup k ((a, v) :: o) = List.lookup k o := by
  simp [List.lookup, beq_eq_false_iff_ne.mpr h]

theorem lookup_cons_eq (k : String) (v : JVal) (o : JObj) :
    List.lookup k ((k, v) :: o) = some v := by
  simp [List.lookup]

theorem notReserved (k : String) (h1 : k ≠ "model") (h2 : k ≠ "messages")
    (h3 : k ≠ "max_completion_tokens") : k ∉ reservedKeys := by
  simp [reservedKeys, h1, h2, h3]

theorem lookup_filterNotReserved (body : JObj) (k : String)
    (hk : k ∉ reservedKeys) :
    List.lookup k (body.filter (fun p => !(reservedKeys.contains p.1))) =
      List.lookup k body := by
  induction body with
  | nil => rfl
  | cons p rest ih =>
    obtain ⟨a, v⟩ := p
    rw [List.filter_cons]
    by_cases hka : k = a
    · subst hka
      rw [if_pos (by simp [hk])]
      rw [lookup_cons_eq, lookup_cons_eq]
    · cases hb : (!(reservedKeys.contains a)) with
      | false =>
        rw [if_neg (by simp [hb])]
        rw [lookup_cons_ne _ _ _ _ hka]
        exact ih
      | true =>
        rw [if_pos (by simp [hb])]
        rw [lookup_cons_ne _ _ _ _ hka, lookup_cons_ne _ _ _ _ hka]
        exact ih

theorem lookup_otherParams (body : JObj) (k : String)
    (hk : k ∉ reservedKeys) :
    List.lookup k (otherParams body) = List.lookup k body :=
  lookup_filterNotReserved body k hk

theorem openaiRequest_model (body : JObj) :
    jget (openaiRequest body) "model" = jor (jget body "model") (JVal.str "gpt-4o-mini") := rfl

theorem openaiRequest_messages (body : JObj) :
    jget (openaiRequest body) "messages" = jget body "messages" := rfl

theorem openaiRequest_mct (body : JObj) :
    jget (openaiRequest body) "max_completion_tokens" =
      jor (jget body "max_completion_tokens") (JVal.num 40) := rfl

theorem openaiRequest_other (body : JObj) (k : String)
    (h1 : k ≠ "model") (h2 : k ≠ "messages") (h3 : k ≠ "max_completion_tokens") :
    jget (openaiRequest body) k = jget body k := by
  unfold jget openaiRequest
  rw [lookup_cons_ne _ _ _ _ h1, lookup_cons_ne _ _ _ _ h2, lookup_cons_ne _ _ _ _ h3,
    lookup_otherParams body k (notReserved k h1 h2 h3)]

theorem mapError_ne_validation (e : JsError) :
    mapError e ≠ missingMessagesResponse ∧ mapError e ≠ badMessageResponse := by
  unfold mapError
  by_cases hq : e.code = some "insufficient_quota"
  · simp [hq, missingMessagesResponse, badMessageResponse]
  · by_cases hr : e.code = some "rate_limit_exceeded"
    · simp [hq, hr, missingMessagesResponse, badMessageResponse]
    · rcases hst : e.status with _ | s
      · simp [hq, hr, hst, serverErrorResponse, missingMessagesResponse, badMessageResponse]
      · by_cases hz : s = 0
        · simp [hq, hr, hst, hz, serverErrorResponse, missingMessagesResponse,
            badMessageResponse]
        · simp [hq, hr, hst, hz, missingMessagesResponse, badMessageResponse]

/-! Claim theorems. -/

/-- C1: for every request body whose messages field is a non-empty array in
which every element has a non-empty role and a non-empty content, the handler
performs exactly one upstream call and, when that call succeeds, responds
with HTTP 200 and the upstream response object unmodified. -/
theorem claim_C1_valid_request_forwarded (body : JObj) (ms : List JVal)
    (u : JObj → UpResult)
    (h1 : jget body "messages" = JVal.arr ms) (h2 : ms ≠ [])
    (h3 : ∀ m ∈ ms, validMsgStr m = true) :
    (handleChat u body).2 = 1 ∧
    ∀ v, u (openaiRequest body) = UpResult.ok v →
      handleChat u body = (⟨200, RespBody.payload v⟩, 1) := by
  have hshape : ∀ m ∈ ms, m ≠ JVal.null ∧ m ≠ JVal.undefined := fun m hm =>
    ⟨(validMsgStr_shape (h3 m hm)).1, (validMsgStr_shape (h3 m hm)).2.1⟩
  have hall : ms.all msgOk = true := by
    rw [List.all_eq_true]
    exact fun m hm => (validMsgStr_shape (h3 m hm)).2.2
  have hv : validateMessages ms = .ok true := by
    rw [validateMessages_all ms hshape, hall]
  have key : handleChat u body =
      (match u (openaiRequest body) with
        | .ok v => (⟨200, RespBody.payload v⟩, 1)
        | .err e => (mapError e, 1)) := by
    simp [handleChat, h1, hv]
  constructor
  · rw [key]; cases u (openaiRequest body) <;> rfl
  · intro v hu; rw [key, hu]

/-- C1 witness: a one-message valid body with a constant successful upstream
yields exactly one call and the 200 passthrough response. -/
theorem claim_C1_witness :
    handleChat (fun _ => UpResult.ok (JVal.str "resp"))
      [("messages", JVal.arr [JVal.obj [("role", JVal.str "user"),
        ("content", JVal.str "hi")]])] =
      (⟨200, RespBody.payload (JVal.str "resp")⟩, 1) :=
  (claim_C1_valid_request_forwarded
    [("messages", JVal.arr [JVal.obj [("role", JVal.str "user"),
      ("content", JVal.str "hi")]])]
    [JVal.obj [("role", JVal.str "user"), ("content", JVal.str "hi")]]
    (fun _ => UpResult.ok (JVal.str "resp")) rfl (List.cons_ne_nil _ _) (by decide)).2
    (JVal.str "resp") rfl

/-- C2: for every request body whose messages field is absent or not an
array, the handler responds 400 with an invalid_request_error envelope and
performs zero upstream calls. -/
theorem claim_C2_missing_messages_rejected (body : JObj) (u : JObj → UpResult)
    (h : ∀ ms, jget body "messages" ≠ JVal.arr ms) :
    handleChat u body = (missingMessagesResponse, 0) := by
  cases hg : jget body "messages" with
  | arr ms => exact absurd hg (h ms)
  | undefined => simp [handleChat, hg]
  | null => simp [handleChat, hg]
  | bool b => simp [handleChat, hg]
  | num n => simp [handleChat, hg]
  | str s => simp [handleChat, hg]
  | obj fs => simp [handleChat, hg]

/-- C2 witness: the empty body has no messages field and is rejected with
the 400 envelope and zero upstream calls. -/
theorem claim_C2_witness :
    handleChat (fun _ => UpResult.ok (JVal.str "r")) [] = (missingMessagesResponse, 0) :=
  claim_C2_missing_messages_rejected [] (fun _ => UpResult.ok (JVal.str "r"))
    (fun ms hcontra => by simp [jget] at hcontra)

/-- C3 counterexample: the body whose messages array is the single element
null has an element lacking a non-empty role and content, yet the handler
responds 500 server_error, not 400: reading a property of null throws a
TypeError that reaches the generic catch branch. Upstream calls stay zero. -/
theorem claim_C3_counterexample :
    handleChat (fun _ => UpResult.ok (JVal.str "r"))
      [("messages", JVal.arr [JVal.null])] = (serverErrorResponse, 0) ∧
    serverErrorResponse.status = 500 ∧ (500 : Nat) ≠ 400 :=
  ⟨rfl, rfl, by decide⟩

/-- C3 (amended): for every request body whose messages field is an array in
which no element is null or undefined and at least one element fails the
role and content truthiness check, the handler responds 400 with the
invalid_request_error envelope and performs zero upstream calls. -/
theorem claim_C3_amended (body : JObj) (ms : List JVal) (u : JObj → UpResult)
    (h1 : jget body "messages" = JVal.arr ms)
    (h2 : ∀ m ∈ ms, m ≠ JVal.null ∧ m ≠ JVal.undefined)
    (h3 : ∃ m ∈ ms, msgOk m = false) :
    handleChat u body = (badMessageResponse, 0) := by
  have hall : ms.all msgOk = false := by
    rcases h3 with ⟨m, hm, hfalse⟩
    rw [List.all_eq_false]
    exact ⟨m, hm, by simp [hfalse]⟩
  have hv : validateMessages ms = .ok false := by
    rw [validateMessages_all ms h2, hall]
  simp [handleChat, h1, hv]

/-- C3 witness: a messages array holding one empty object is rejected with
the 400 envelope and zero upstream calls. -/
theorem claim_C3_witness :
    handleChat (fun _ => UpResult.ok (JVal.str "r"))
      [("messages", JVal.arr [JVal.obj []])] = (badMessageResponse, 0) :=
  claim_C3_amended [("messages", JVal.arr [JVal.obj []])] [JVal.obj []]
    (fun _ => UpResult.ok (JVal.str "r")) rfl
    (by
      intro m hm
      rw [List.mem_singleton] at hm
      subst hm
      exact ⟨fun hc => JVal.noConfusion hc, fun hc => JVal.noConfusion hc⟩)
    ⟨JVal.obj [], List.mem_singleton.mpr rfl, rfl⟩

/-- C4 counterexample: the caller supplies max_completion_tokens 0, yet the
constructed upstream request carries 40, because the JavaScript fallback
uses truthiness rather than presence. -/
theorem claim_C4_counterexample :
    jget [("messages", JVal.arr []), ("max_completion_tokens", JVal.num 0)]
      "max_completion_tokens" = JVal.num 0 ∧
    jget (openaiRequest [("messages", JVal.arr []),
      ("max_completion_tokens", JVal.num 0)]) "max_completion_tokens" = JVal.num 40 ∧
    JVal.num 40 ≠ JVal.num 0 := by
  refine ⟨rfl, rfl, fun hc => ?_⟩
  injection hc with h
  exact absurd h (by decide)

/-- C4 (amended): the upstream request carries the caller model when a
truthy one is supplied and gpt-4o-mini otherwise, the caller
max_completion_tokens when truthy and 40 otherwise, the caller messages
unchanged, and every field outside the three destructured keys unmodified. -/
theorem claim_C4_amended (body : JObj) (k : String)
    (h1 : k ≠ "model") (h2 : k ≠ "messages") (h3 : k ≠ "max_completion_tokens") :
    jget (openaiRequest body) "model" = jor (jget body "model") (JVal.str "gpt-4o-mini") ∧
    jget (openaiRequest body) "messages" = jget body "messages" ∧
    jget (openaiRequest body) "max_completion_tokens" =
      jor (jget body "max_completion_tokens") (JVal.num 40) ∧
    jget (openaiRequest body) k = jget body k :=
  ⟨openaiRequest_model body, openaiRequest_messages body, openaiRequest_mct body,
    openaiRequest_other body k h1 h2 h3⟩

/-- C4 witness: a body carrying messages and a temperature passthrough
field, evaluated at the key temperature. -/
theorem claim_C4_witness :
    jget (openaiRequest [("messages", JVal.arr []), ("temperature", JVal.num 1)])
      "model" = jor (jget [("messages", JVal.arr []), ("temperature", JVal.num 1)]
        "model") (JVal.str "gpt-4o-mini") ∧
    jget (openaiRequest [("messages", JVal.arr []), ("temperature", JVal.num 1)])
      "messages" = jget [("messages", JVal.arr []), ("temperature", JVal.num 1)]
        "messages" ∧
    jget (openaiRequest [("messages", JVal.arr []), ("temperature", JVal.num 1)])
      "max_completion_tokens" =
      jor (jget [("messages", JVal.arr []), ("temperature", JVal.num 1)]
        "max_completion_tokens") (JVal.num 40) ∧
    jget (openaiRequest [("messages", JVal.arr []), ("temperature", JVal.num 1)])
      "temperature" =
      jget [("messages", JVal.arr []), ("temperature", JVal.num 1)] "temperature" :=
  claim_C4_amended [("messages", JVal.arr []), ("temperature", JVal.num 1)]
    "temperature" (by decide) (by decide) (by decide)

/-- C5: the catch block classifies every upstream failure in the precedence
order the claim states: quota exhaustion, then rate-limit exceedance, then a
carried status code with passthrough and api_error fallbacks, then the
generic 500 server_error. -/
theorem claim_C5_error_precedence (e : JsError) : mapError e = classifyPerSpec e := by
  by_cases hq : e.code = some "insufficient_quota"
  · simp [mapError, classifyPerSpec, quotaExhausted, hq]
  · by_cases hr : e.code = some "rate_limit_exceeded"
    · simp [mapError, classifyPerSpec, quotaExhausted, rateLimitHit, hq, hr]
    · rcases hst : e.status with _ | s
      · simp [mapError, classifyPerSpec, quotaExhausted, rateLimitHit, hq, hr, hst,
          serverErrorResponse, genericFailure]
      · by_cases hz : s = 0
        · subst hz
          simp [mapError, classifyPerSpec, quotaExhausted, rateLimitHit, hq, hr, hst,
            serverErrorResponse, genericFailure]
        · simp [mapError, classifyPerSpec, quotaExhausted, rateLimitHit, hq, hr, hst, hz,
            passthroughEnv, serverErrorResponse, genericFailure, Nat.pos_of_ne_zero hz]

/-- C6 counterexample: an upstream failure carrying status 404 and message M
together with the insufficient_quota code is answered 429 with the fixed
quota message, not with status 404 and message M. -/
theorem claim_C6_counterexample :
    mapError ⟨some "insufficient_quota", some 404, some "M", none⟩ =
      ⟨429, RespBody.errorEnv
        ⟨"API quota exceeded", "insufficient_quota", some "insufficient_quota"⟩⟩ ∧
    (429 : Nat) ≠ 404 ∧ "API quota exceeded" ≠ "M" :=
  ⟨rfl, by decide, by decide⟩

/-- C6 (amended): for every upstream failure whose code is neither
insufficient_quota nor rate_limit_exceeded, carrying a nonzero status S and
a non-empty message M, the handler responds with status S and an envelope
whose message is M. -/
theorem claim_C6_amended (e : JsError) (S : Nat) (M : String)
    (hq : e.code ≠ some "insufficient_quota") (hr : e.code ≠ some "rate_limit_exceeded")
    (hs : e.status = some S) (hS : S ≠ 0) (hm : e.message = some M) (hM : M ≠ "") :
    (mapError e).status = S ∧ envMessage (mapError e) = some M := by
  have key : mapError e =
      ⟨S, .errorEnv ⟨M, strOr e.type "api_error", some (strOr e.code "api_error")⟩⟩ := by
    simp [mapError, hq, hr, hs, hS, strOr, hm, hM]
  rw [key]
  exact ⟨rfl, rfl⟩

/-- C6 witness: an upstream failure with status 418 and message teapot and
no code is answered with status 418 and that message. -/
theorem claim_C6_witness :
    (mapError ⟨none, some 418, some "teapot", none⟩).status = 418 ∧
    envMessage (mapError ⟨none, some 418, some "teapot", none⟩) = some "teapot" :=
  claim_C6_amended ⟨none, some 418, some "teapot", none⟩ 418 "teapot"
    (by simp) (by simp) rfl (by decide) rfl (by decide)

/-- C7: every request to GET /health receives 200 with a body whose status
field is OK and which carries the service name; the handler consults no
upstream state, so the result is independent of upstream availability. -/
theorem claim_C7_health (ts : String) :
    (healthHandler ts).status = 200 ∧
    bodyField (healthHandler ts) "status" = JVal.str "OK" ∧
    bodyField (healthHandler ts) "service" = JVal.str "Crystal Companions Backend" :=
  ⟨rfl, rfl, rfl⟩

/-- C8: once the window counter has reached the cap, the next request from
that client is rejected with the rate-limit response, with zero upstream
calls, and the response is the same for every request body, so the body
never reaches validation. -/
theorem claim_C8_rate_limited (cap prior : Nat) (u : JObj → UpResult) (body : JObj)
    (h : cap ≤ prior) :
    gatewayStep cap prior u body = (rateLimitedResponse, prior + 1, 0) := by
  simp only [gatewayStep]
  rw [if_pos (Nat.lt_succ_of_le h)]

/-- C8 witness: with the cap 120 reached, a fully valid payload is still
rejected with the rate-limit response and zero upstream calls. -/
theorem claim_C8_witness :
    gatewayStep 120 120 (fun _ => UpResult.ok (JVal.str "r"))
      [("messages", JVal.arr [JVal.obj [("role", JVal.str "user"),
        ("content", JVal.str "hi")]])] = (rateLimitedResponse, 121, 0) :=
  claim_C8_rate_limited 120 120 (fun _ => UpResult.ok (JVal.str "r"))
    [("messages", JVal.arr [JVal.obj [("role", JVal.str "user"),
      ("content", JVal.str "hi")]])] (Nat.le_refl 120)

/-- C9: the model, messages and max_completion_tokens fields of the
constructed upstream request are each a function of the identically named
body field alone, so no passthrough parameter can override them: the three
keys are destructured out before the rest spread. -/
theorem claim_C9_no_override (body : JObj) :
    jget (openaiRequest body) "model" = jor (jget body "model") (JVal.str "gpt-4o-mini") ∧
    jget (openaiRequest body) "messages" = jget body "messages" ∧
    jget (openaiRequest body) "max_completion_tokens" =
      jor (jget body "max_completion_tokens") (JVal.num 40) :=
  ⟨rfl, rfl, rfl⟩

/-- C10: the body whose messages field is the empty array passes both
validation checks: the handler performs exactly one upstream call and its
response is never one of the two 400 validation envelopes. -/
theorem claim_C10_empty_messages (u : JObj → UpResult) :
    (handleChat u [("messages", JVal.arr [])]).2 = 1 ∧
    (handleChat u [("messages", JVal.arr [])]).1 ≠ missingMessagesResponse ∧
    (handleChat u [("messages", JVal.arr [])]).1 ≠ badMessageResponse := by
  have key : handleChat u [("messages", JVal.arr [])] =
      (match u (openaiRequest [("messages", JVal.arr [])]) with
        | .ok v => (⟨200, RespBody.payload v⟩, 1)
        | .err e => (mapError e, 1)) := rfl
  rw [key]
  cases hu : u (openaiRequest [("messages", JVal.arr [])]) with
  | ok v =>
    refine ⟨rfl, ?_, ?_⟩ <;> simp [missingMessagesResponse, badMessageResponse]
  | err e => exact ⟨rfl, (mapError_ne_validation e).1, (mapError_ne_validation e).2⟩

end Server
